import Mathlib

/-!
Verification of the startup-manager terminal multiplexing core.

This file gives a shallow embedding, in Lean, of the parts of the
implementation that the specification talks about:

* `TerminalServer` (src/src/lib/TerminalServer.ts): the PTY session
  registry, attach/create protocol, output fan-out, buffer cap,
  close/exit teardown, and the foreground-process-name poller;
* `Program` (the program supervisor class): start/stop/monitor/pid
  resolution driven by external `screen` and `ps` invocations;
* `WebSocketServer` auth-token issue/validate/cleanup.

External effects (process spawn, `exec` of shell pipelines, socket
emissions) are made observable: each operation returns, besides its
state update, a trace of `Action`s, and results of external commands
become explicit oracle inputs (`ExecResult`).  JS `Map`s become
association lists in insertion order, mirroring ECMAScript Map
iteration semantics.
-/

namespace StartupManager

/-- Result of a child_process exec call as observed by its callback:
an error flag and the captured stdout text. -/
structure ExecResult where
  err : Bool
  stdout : String
deriving Repr, DecidableEq

/-- JS String.prototype.trim, modelled over the character list. -/
def jsTrim (s : String) : String :=
  String.mk (((s.data.dropWhile Char.isWhitespace).reverse.dropWhile Char.isWhitespace).reverse)

/-- JS String.prototype.includes: substring containment test. -/
def strIncludes (hay needle : String) : Bool :=
  (List.range (hay.data.length + 1)).any (fun i => needle.data.isPrefixOf (hay.data.drop i))

/-- Parse a decimal numeral.  Models JS parseInt(s, 10) over the outputs
the `ps` pipelines actually produce (a pid numeral or garbage); a
non-numeral yields none, which also stands for the NaN that JS would
store, since every later use of the pid only tests its truthiness and
NaN is falsy. -/
def digitsToNat (l : List Char) : Option Nat :=
  if l ≠ [] ∧ l.all Char.isDigit then
    some (l.foldl (fun n c => n * 10 + (c.toNat - 48)) 0)
  else none

/-- Pid extracted from a `ps` stdout, after trimming. -/
def parsePid (s : String) : Option Nat := digitsToNat (jsTrim s).data

/-- Flat JSON-ish values appearing in socket.io payload objects. -/
inductive JVal where
  | str : String → JVal
  | num : Nat → JVal
  | undef : JVal
deriving Repr, DecidableEq

/-- Payload of a socket.io emit: absent, a bare string, or an object
rendered as its (key, value) fields in source order. -/
inductive Payload where
  | empty : Payload
  | str : String → Payload
  | obj : List (String × JVal) → Payload
deriving Repr, DecidableEq

/-- screenName fields hold the string when present, else undefined. -/
def jOptStr : Option String → JVal
  | some s => JVal.str s
  | none => JVal.undef

/-- Observable actions of the terminal server.  `emitFailed` records a
socket send that threw and was caught and logged by the server (the
surrounding loop continues).  `registryDelete` records a
`terminals.delete(id)` call together with whether an entry was actually
removed. -/
inductive Action where
  | spawn : List String → Action
  | ptyWrite : String → String → Action
  | ptyKill : String → Action
  | emit : String → String → Payload → Action
  | emitFailed : String → String → Action
  | nsEmit : String → Action
  | bufferAppend : String → String → Action
  | registryDelete : String → Bool → Action
deriving Repr, DecidableEq

/-- One entry of `TerminalServer.terminals`.  `connections` is the JS
Map from clientId to socket, kept in insertion order; sockets are
identified by their id strings. -/
structure TerminalInstance where
  id : String
  pid : Nat
  connections : List (String × String)
  createdAt : String
  initialCommand : List String
  buffer : List String
  screenName : Option String
  programName : Option String
deriving Repr, DecidableEq

/-- The mutable state of a TerminalServer: the session registry and the
socket-to-terminal map. -/
structure ServerState where
  terminals : List TerminalInstance
  socketToTerminalMap : List (String × String)
deriving Repr, DecidableEq

/-- Map.get over an insertion-ordered association list. -/
def mapGet (m : List (String × String)) (k : String) : Option String :=
  (m.find? (fun e => e.1 == k)).map (fun e => e.2)

/-- Map.set: replace in place if the key exists, else append. -/
def mapSet (m : List (String × String)) (k v : String) : List (String × String) :=
  if (m.find? (fun e => e.1 == k)).isSome then
    m.map (fun e => if e.1 == k then (k, v) else e)
  else m ++ [(k, v)]

/-- Map.delete over the socket-to-terminal map. -/
def mapDelete (m : List (String × String)) (k : String) : List (String × String) :=
  m.filter (fun e => !(e.1 == k))

/-- terminals.get(id). -/
def getTerminal (ts : List TerminalInstance) (tid : String) : Option TerminalInstance :=
  ts.find? (fun t => t.id == tid)

/-- terminals.delete(id): the remaining entries and whether an entry
was present (and hence removed). -/
def deleteTerminal (ts : List TerminalInstance) (tid : String) :
    List TerminalInstance × Bool :=
  (ts.filter (fun t => !(t.id == tid)), ts.any (fun t => t.id == tid))

/-- Command selection in createTerminal / createOrAttachTerminal:
screen attach wins over an explicit shell, default bash. -/
def chooseCommand (screenName shell : Option String) : List String :=
  match screenName with
  | some sn => ["screen", "-S", sn]
  | none =>
    match shell with
    | some sh => [sh]
    | none => ["bash"]

/-- The initialization keystrokes written into a freshly spawned PTY
when no screen session was requested. -/
def welcomeWrites (tid : String) : List Action :=
  [ Action.ptyWrite tid "echo \"Welcome to the terminal. Type \x27exit\x27 to close.\"\r",
    Action.ptyWrite tid "export PS1=\"$ \"\r",
    Action.ptyWrite tid "clear\r",
    Action.ptyWrite tid "ls -la\r" ]

/-- Snapshot returned by the createTerminal RPC. -/
structure CreateResult where
  id : String
  pid : Nat
  screenName : String
  createdAt : String
  connectionCount : Nat
deriving Repr, DecidableEq

/-- Parameters of the createTerminal RPC. -/
structure CreateParams where
  screenName : Option String
  shell : Option String
deriving Repr, DecidableEq

/-- TerminalServer.createTerminal (the RPC entry point).  The shell
string is used as received: the method performs no validation of any
kind before `pty.spawn`; the new terminal is registered unconditionally
and a session-list-changed broadcast goes out.  `freshId` is the uuid,
`spawnPid` the pid the spawn produced, `nowIso` the creation
timestamp. -/
def createTerminal (st : ServerState) (p : CreateParams)
    (freshId : String) (spawnPid : Nat) (nowIso : String) :
    ServerState × CreateResult × List Action :=
  let command := chooseCommand p.screenName p.shell
  let terminal : TerminalInstance :=
    { id := freshId, pid := spawnPid, connections := [],
      createdAt := nowIso, initialCommand := command,
      buffer := [], screenName := p.screenName, programName := none }
  let st1 : ServerState := { st with terminals := st.terminals ++ [terminal] }
  (st1,
   { id := freshId, pid := spawnPid, screenName := p.screenName.getD "",
     createdAt := nowIso, connectionCount := 0 },
   [Action.spawn command, Action.nsEmit "terminalListChanged"] ++
     (if p.screenName.isNone then welcomeWrites freshId else []))

/-- Buffer update of the PTY onData handlers: push the chunk, then
`if (buffer.length > 1000) buffer.splice(0, buffer.length - 1000)`. -/
def pushChunk (buffer : List String) (data : String) : List String :=
  let b := buffer ++ [data]
  if b.length > 1000 then b.drop (b.length - 1000) else b

/-- TerminalServer.broadcastOutput: look the terminal up; push the
chunk to every attached connection, catching (and logging) a send
failure per connection so the loop continues. -/
def broadcastOutput (st : ServerState) (tid : String) (data : String)
    (fails : String → Bool) : List Action :=
  match getTerminal st.terminals tid with
  | some terminal =>
    terminal.connections.map (fun c =>
      if fails c.2 then Action.emitFailed c.2 "output"
      else Action.emit c.2 "output" (Payload.str data))
  | none => []

/-- The ptyProcess.onData handler: append the chunk to the session
buffer (capped), then fan it out via broadcastOutput. -/
def handleData (st : ServerState) (tid : String) (data : String)
    (fails : String → Bool) : ServerState × List Action :=
  let st1 : ServerState :=
    { st with terminals := st.terminals.map (fun t =>
        if t.id == tid then { t with buffer := pushChunk t.buffer data } else t) }
  (st1, Action.bufferAppend tid data :: broadcastOutput st1 tid data fails)

/-- Processing a whole sequence of PTY output events through the onData
handler. -/
def processChunks (st : ServerState) (tid : String) (fails : String → Bool)
    (chunks : List String) : ServerState :=
  chunks.foldl (fun s d => (handleData s tid d fails).1) st

/-- TerminalServer.broadcastConnectionCountChange. -/
def broadcastConnectionCountChange (st : ServerState) (tid : String)
    (fails : String → Bool) : List Action :=
  match getTerminal st.terminals tid with
  | some terminal =>
    terminal.connections.map (fun c =>
      if fails c.2 then Action.emitFailed c.2 "connectionCountChanged"
      else Action.emit c.2 "connectionCountChanged"
        (Payload.obj [("count", JVal.num terminal.connections.length)]))
  | none => []

/-- Data of an attach request after the id/terminalId aliasing. -/
structure AttachData where
  terminalId : Option String
  screenName : Option String
  shell : Option String
  clientId : Option String
deriving Repr, DecidableEq

/-- The attach-to-existing branch of createOrAttachTerminal: drop any
previous connection entry for this client (by clientId or socket id,
also unlinking those sockets from the socket map), append the new
connection, link the socket, replay the whole buffer as one joined
output event, acknowledge with terminalId/screenName/connectionCount,
then broadcast the new connection count. -/
def attachExisting (st : ServerState) (sock clientId tid : String)
    (terminal : TerminalInstance) (fails : String → Bool) :
    ServerState × List Action :=
  let stale := terminal.connections.filter (fun c => c.1 == clientId || c.2 == sock)
  let kept := terminal.connections.filter (fun c => !(c.1 == clientId || c.2 == sock))
  let conns2 := kept ++ [(clientId, sock)]
  let sMap1 := stale.foldl (fun m c => mapDelete m c.2) st.socketToTerminalMap
  let updated : TerminalInstance := { terminal with connections := conns2 }
  let st1 : ServerState :=
    { st with
      terminals := st.terminals.map (fun t => if t.id == tid then updated else t),
      socketToTerminalMap := mapSet sMap1 sock terminal.id }
  (st1,
   Action.emit sock "output" (Payload.str (String.join terminal.buffer)) ::
   Action.emit sock "connected" (Payload.obj
     [("terminalId", JVal.str terminal.id),
      ("screenName", jOptStr terminal.screenName),
      ("connectionCount", JVal.num conns2.length)]) ::
   broadcastConnectionCountChange st1 tid fails)

/-- The create branch of createOrAttachTerminal, reached when no known
terminalId was supplied: spawn, register, link the requesting
connection, broadcast the list change, write the welcome input when no
screen was requested, and acknowledge. -/
def createNewFromAttach (st : ServerState) (sock clientId freshId : String)
    (spawnPid : Nat) (nowIso : String) (d : AttachData) :
    ServerState × List Action :=
  let command := chooseCommand d.screenName d.shell
  let terminal : TerminalInstance :=
    { id := freshId, pid := spawnPid, connections := [(clientId, sock)],
      createdAt := nowIso, initialCommand := command,
      buffer := [], screenName := d.screenName, programName := none }
  let st1 : ServerState :=
    { st with
      terminals := st.terminals ++ [terminal],
      socketToTerminalMap := mapSet st.socketToTerminalMap sock freshId }
  (st1,
   [Action.spawn command, Action.nsEmit "terminalListChanged"] ++
   (if d.screenName.isNone then welcomeWrites freshId else []) ++
   [Action.emit sock "connected" (Payload.obj
     [("terminalId", JVal.str freshId),
      ("screenName", jOptStr d.screenName),
      ("connectionCount", JVal.num 1)])])

/-- TerminalServer.createOrAttachTerminal: attach when the supplied
terminalId exists, otherwise fall through to creating a fresh
terminal. -/
def createOrAttachTerminal (st : ServerState) (sock : String) (d : AttachData)
    (freshId : String) (spawnPid : Nat) (nowIso : String)
    (fails : String → Bool) : ServerState × List Action :=
  let clientId := d.clientId.getD sock
  match d.terminalId with
  | some tid =>
    match getTerminal st.terminals tid with
    | some terminal => attachExisting st sock clientId tid terminal fails
    | none => createNewFromAttach st sock clientId freshId spawnPid nowIso d
  | none => createNewFromAttach st sock clientId freshId spawnPid nowIso d

/-- The diagnostic line broadcast when a PTY process exits. -/
def exitMessage : String := "\r\n\x1b[1;31mTerminal process exited\x1b[0m\r\n"

/-- The ptyProcess.onExit handler registered by createOrAttachTerminal.
It closes over the terminal object (`captured`): it broadcasts the exit
diagnostic through the registry (a no-op if the entry is already gone),
emits terminal_exited to every connection still in the captured
connection map, deletes the registry entry, and broadcasts the list
change. -/
def handleExit (st : ServerState) (captured : TerminalInstance)
    (fails : String → Bool) : ServerState × List Action :=
  let outEvents := broadcastOutput st captured.id exitMessage fails
  let exitEvents := captured.connections.map (fun c =>
    Action.emit c.2 "terminal_exited" Payload.empty)
  let del := deleteTerminal st.terminals captured.id
  ({ st with terminals := del.1 },
   outEvents ++ exitEvents ++
   [Action.registryDelete captured.id del.2, Action.nsEmit "terminalListChanged"])

/-- TerminalServer.closeTerminal: kill the PTY, emit terminal_closed to
every attached connection (without clearing the connection map), delete
the registry entry, broadcast the list change; a no-op on an unknown
id. -/
def closeTerminal (st : ServerState) (tid : String) : ServerState × List Action :=
  match getTerminal st.terminals tid with
  | some terminal =>
    let closedEvents := terminal.connections.map (fun c =>
      Action.emit c.2 "terminal_closed" Payload.empty)
    let del := deleteTerminal st.terminals tid
    ({ st with terminals := del.1 },
     Action.ptyKill tid :: closedEvents ++
     [Action.registryDelete tid del.2, Action.nsEmit "terminalListChanged"])
  | none => (st, [])

/-- Race interleaving: explicit close runs first; the kill makes the
process exit, so the onExit callback (with its captured terminal
object, whose connection map the close did not clear) fires next on the
event loop. -/
def closeThenExit (st : ServerState) (tid : String) (fails : String → Bool) :
    ServerState × List Action :=
  match getTerminal st.terminals tid with
  | some terminal =>
    let r1 := closeTerminal st tid
    let r2 := handleExit r1.1 terminal fails
    (r2.1, r1.2 ++ r2.2)
  | none => (st, [])

/-- Race interleaving: the process exits on its own first; the explicit
close then finds the registry entry gone and does nothing. -/
def exitThenClose (st : ServerState) (tid : String) (fails : String → Bool) :
    ServerState × List Action :=
  match getTerminal st.terminals tid with
  | some terminal =>
    let r1 := handleExit st terminal fails
    let r2 := closeTerminal r1.1 tid
    (r2.1, r1.2 ++ r2.2)
  | none => (st, [])

/-- Does this action emit the named event to the named socket? -/
def isEmitTo (a : Action) (sock name : String) : Bool :=
  match a with
  | Action.emit s n _ => s == sock && n == name
  | _ => false

/-- Number of events of a given name delivered to a given socket in a
trace. -/
def countEmits (tr : List Action) (sock name : String) : Nat :=
  tr.countP (fun a => isEmitTo a sock name)

/-- Number of successful registry removals of a given terminal id in a
trace. -/
def removalCount (tr : List Action) (tid : String) : Nat :=
  tr.countP (fun a =>
    match a with
    | Action.registryDelete t removed => t == tid && removed
    | _ => false)

/-- Does this action emit an event with the given name (to anyone)? -/
def isEmitNamed (a : Action) (name : String) : Bool :=
  match a with
  | Action.emit _ n _ => n == name
  | _ => false

/-- Does an object payload carry the given key? -/
def payloadHasKey (p : Payload) (k : String) : Bool :=
  match p with
  | Payload.obj fields => fields.any (fun f => f.1 == k)
  | _ => false

/-- Key set of the payload of an emitted event, for inspecting what an
acknowledgement actually contains. -/
def emitPayload (a : Action) : Payload :=
  match a with
  | Action.emit _ _ p => p
  | _ => Payload.empty

/-- The poller interval configured in the TerminalServer constructor
(milliseconds). -/
def pollIntervalMs : Nat := 3000

/-- TerminalServer.getForegroundProcessName: the exec callback resolves
null on an error or empty stdout, else the trimmed stdout. -/
def getForegroundProcessName (e : ExecResult) : Option String :=
  if e.err || e.stdout == "" then none else some (jsTrim e.stdout)

/-- One poller visit to one terminal: when the name resolved to a
non-empty value different from the stored programName, store it and
notify every attached connection; otherwise (including resolution
failure) change nothing and stay silent. -/
def pollerStep (t : TerminalInstance) (e : ExecResult) :
    TerminalInstance × List Action :=
  match getForegroundProcessName e with
  | none => (t, [])
  | some name =>
    if name ≠ "" ∧ t.programName ≠ some name then
      ({ t with programName := some name },
       t.connections.map (fun c =>
         Action.emit c.2 "programNameChanged" (Payload.obj
           [("terminalId", JVal.str t.id), ("programName", JVal.str name)])))
    else (t, [])

/-- One pass of the 3-second poller over every live session; `res`
gives each `ps` query result, keyed by the session pid. -/
def pollerPass (st : ServerState) (res : Nat → ExecResult) :
    ServerState × List Action :=
  ({ st with terminals := st.terminals.map (fun t => (pollerStep t (res t.pid)).1) },
   (st.terminals.map (fun t => (pollerStep t (res t.pid)).2)).flatten)

/-! ### Program supervisor (the Program class)

External `exec` calls are oracle inputs: one `ExecResult` per shell
pipeline the operation runs, named after the call site and supplied in
program order.  OS-level effects (signals, screen keystrokes) are
returned as an `OsAction` trace. -/

/-- Program.stopMethod values. -/
inductive StopMethod where
  | SIGINT : StopMethod
  | SIGHUP : StopMethod
  | CTRL_C : StopMethod
deriving Repr, DecidableEq

/-- Program.status values. -/
inductive ProgramStatus where
  | running : ProgramStatus
  | stopped : ProgramStatus
  | error : ProgramStatus
deriving Repr, DecidableEq

/-- The mutable fields of a Program relevant to supervision.  The pid
is an Option: undefined and NaN pids are both none, since every use of
the field only tests its truthiness. -/
structure ProgramSt where
  name : String
  command : String
  screenName : String
  stopMethod : StopMethod
  pid : Option Nat
  status : ProgramStatus
  screenActive : Bool
deriving Repr, DecidableEq

/-- OS-level side effects of the supervisor. -/
inductive OsAction where
  | kill : Nat → String → OsAction
  | stuff : String → String → OsAction
deriving Repr, DecidableEq

/-- Program.updateStatus (the status-change broadcast callback is not
itself modelled; no claim mentions it). -/
def updateStatus (p : ProgramSt) (s : ProgramStatus) : ProgramSt :=
  { p with status := s }

/-- Program.checkScreenActive: run `screen -list | grep name` and set
screenActive to whether the pipeline succeeded with the session name in
its stdout. -/
def checkScreenActive (p : ProgramSt) (e : ExecResult) : ProgramSt × Bool :=
  let active := !e.err && strIncludes e.stdout p.screenName
  ({ p with screenActive := active }, active)

/-- The exec results consumed by one Program.findProcessPid call: the
screen liveness check and the three successive `ps` pipelines. -/
structure FindPidCalls where
  screen : ExecResult
  ps1 : ExecResult
  ps2 : ExecResult
  ps3 : ExecResult
deriving Repr, DecidableEq

/-- One `ps` attempt inside findProcessPid: the attempt fails (falls
through to the next) on an exec error or blank output, else it yields
the parsed pid. -/
def psAttempt (e : ExecResult) : Option (Option Nat) :=
  if e.err || jsTrim e.stdout == "" then none else some (parsePid e.stdout)

/-- Program.findProcessPid: give up (clearing the pid, status stopped)
when the screen session is inactive; otherwise try the three `ps`
pipelines in order, taking the first usable output as the pid (status
running), and fall back to pid-cleared/stopped when all three fail. -/
def findProcessPid (p : ProgramSt) (c : FindPidCalls) :
    ProgramSt × Option Nat :=
  let r := checkScreenActive p c.screen
  if !r.2 then
    (updateStatus { r.1 with pid := none } ProgramStatus.stopped, none)
  else
    match psAttempt c.ps1 with
    | some v => (updateStatus { r.1 with pid := v } ProgramStatus.running, v)
    | none =>
      match psAttempt c.ps2 with
      | some v => (updateStatus { r.1 with pid := v } ProgramStatus.running, v)
      | none =>
        match psAttempt c.ps3 with
        | some v => (updateStatus { r.1 with pid := v } ProgramStatus.running, v)
        | none =>
          (updateStatus { r.1 with pid := none } ProgramStatus.stopped, none)

/-- The exec results consumed by one Program.stopWithCtrlC call. -/
structure CtrlCCalls where
  screenCheck : ExecResult
  stuff : ExecResult
  find : FindPidCalls
deriving Repr, DecidableEq

/-- Program.stopWithCtrlC: re-check screen liveness if the flag is
down, bail out (false) when the session is gone; otherwise send the
interrupt keystroke into the screen session (the send result is only
logged), wait, re-resolve the pid, and succeed exactly when no pid
remains. -/
def stopWithCtrlC (p : ProgramSt) (c : CtrlCCalls) :
    ProgramSt × Bool × List OsAction :=
  let r :=
    if !p.screenActive then checkScreenActive p c.screenCheck
    else (p, true)
  if !r.2 then (r.1, false, [])
  else
    let tr := [OsAction.stuff r.1.screenName "\x03"]
    let r2 := findProcessPid r.1 c.find
    if r2.1.pid.isNone then
      (updateStatus r2.1 ProgramStatus.stopped, true, tr)
    else (r2.1, false, tr)

/-- The exec results consumed by one Program.stop call. -/
structure StopCalls where
  find1 : FindPidCalls
  ctrl : CtrlCCalls
  killOk : Bool
  find2 : FindPidCalls
deriving Repr, DecidableEq

/-- The signal-dispatch tail of Program.stop: deliver the configured
signal to the resolved pid (a throwing process.kill is caught by the
surrounding try, returning false), wait the grace delay, re-resolve the
pid, and succeed exactly when it is gone.  The CTRL_C method routes to
stopWithCtrlC instead.  With no pid at all, process.kill throws
immediately (nothing delivered). -/
def stopSignalPhase (p : ProgramSt) (c : StopCalls) :
    ProgramSt × Bool × List OsAction :=
  match p.stopMethod with
  | StopMethod.CTRL_C => stopWithCtrlC p c.ctrl
  | m =>
    let sig := if m = StopMethod.SIGINT then "SIGINT" else "SIGHUP"
    match p.pid with
    | none => (p, false, [])
    | some n =>
      if !c.killOk then (p, false, [OsAction.kill n sig])
      else
        let r := findProcessPid p c.find2
        if r.1.pid.isNone then
          (updateStatus r.1 ProgramStatus.stopped, true, [OsAction.kill n sig])
        else (r.1, false, [OsAction.kill n sig])

/-- Program.stop: for the signal methods with no pid on hand, resolve
one first; if none can be found, fall back to the interrupt keystroke
when the screen session is active, else report failure; otherwise
dispatch on the configured stop method. -/
def stop (p : ProgramSt) (c : StopCalls) : ProgramSt × Bool × List OsAction :=
  if p.stopMethod ≠ StopMethod.CTRL_C ∧ p.pid = none then
    let r := findProcessPid p c.find1
    if r.1.pid = none then
      if r.1.screenActive then stopWithCtrlC r.1 c.ctrl
      else (r.1, false, [])
    else stopSignalPhase r.1 c
  else stopSignalPhase p c

/-- The exec results consumed by one Program.monitor call. -/
structure MonitorCalls where
  screen1 : ExecResult
  find1 : FindPidCalls
  alive : Bool
  screen2 : ExecResult
  find2 : FindPidCalls
deriving Repr, DecidableEq

/-- Program.monitor: screen liveness is authoritative (a session found
inactive clears the pid and stops); with the session alive, resolve the
pid and double-check it with a signal-0 probe, falling back to a fresh
resolution when the probed process is gone but the screen is still
there. -/
def monitor (p : ProgramSt) (c : MonitorCalls) : ProgramSt :=
  if p.screenActive && !(checkScreenActive p c.screen1).2 then
    updateStatus { (checkScreenActive p c.screen1).1 with pid := none }
      ProgramStatus.stopped
  else if !(checkScreenActive p c.screen1).2 then
    if (checkScreenActive p c.screen1).1.status ≠ ProgramStatus.stopped then
      updateStatus { (checkScreenActive p c.screen1).1 with pid := none }
        ProgramStatus.stopped
    else (checkScreenActive p c.screen1).1
  else
    match (findProcessPid (checkScreenActive p c.screen1).1 c.find1).1.pid with
    | none => (findProcessPid (checkScreenActive p c.screen1).1 c.find1).1
    | some _ =>
      if c.alive then
        updateStatus (findProcessPid (checkScreenActive p c.screen1).1 c.find1).1
          ProgramStatus.running
      else
        if (checkScreenActive
            (updateStatus
              { (findProcessPid (checkScreenActive p c.screen1).1 c.find1).1 with pid := none }
              ProgramStatus.stopped) c.screen2).2 then
          (findProcessPid
            (checkScreenActive
              (updateStatus
                { (findProcessPid (checkScreenActive p c.screen1).1 c.find1).1 with pid := none }
                ProgramStatus.stopped) c.screen2).1 c.find2).1
        else
          (checkScreenActive
            (updateStatus
              { (findProcessPid (checkScreenActive p c.screen1).1 c.find1).1 with pid := none }
              ProgramStatus.stopped) c.screen2).1

/-- The exec results consumed by one Program.start call. -/
structure StartCalls where
  find1 : FindPidCalls
  screenList : ExecResult
  screenCreate : ExecResult
  screenCheck : ExecResult
  stuff : ExecResult
  find2 : FindPidCalls
deriving Repr, DecidableEq

/-- Program.startScreen: reuse the session when `screen -list` already
shows it (marking it active directly); otherwise create it with
`screen -dmS` and re-check liveness. -/
def startScreen (p : ProgramSt) (c : StartCalls) : ProgramSt × Bool :=
  if !c.screenList.err && strIncludes c.screenList.stdout p.screenName then
    ({ p with screenActive := true }, true)
  else if c.screenCreate.err then (p, false)
  else checkScreenActive p c.screenCheck

/-- Program.runInScreen: ensure the screen session, then send the
configured command into it. -/
def runInScreen (p : ProgramSt) (c : StartCalls) : ProgramSt × Bool :=
  let r := startScreen p c
  if !r.2 then (r.1, false) else (r.1, !c.stuff.err)

/-- Program.start: report success at once when a pid is already found;
otherwise run the command in the screen session and, when that
succeeded, resolve the pid and set status running unconditionally —
even when the resolution just failed. -/
def start (p : ProgramSt) (c : StartCalls) : ProgramSt × Bool :=
  let r := findProcessPid p c.find1
  if r.2.isSome then (updateStatus r.1 ProgramStatus.running, true)
  else
    let r2 := runInScreen r.1 c
    if r2.2 then
      let r3 := findProcessPid r2.1 c.find2
      (updateStatus r3.1 ProgramStatus.running, true)
    else (r2.1, false)

/-- Well-formed `ps` pipeline output: the call errors, or produces
blank output, or produces a decimal pid numeral (what the awk/head
pipelines emit on a live system).  Under this assumption the JS
parseInt never manufactures a NaN pid. -/
def wfPs (e : ExecResult) : Prop :=
  e.err = true ∨ jsTrim e.stdout = "" ∨ (parsePid e.stdout).isSome = true

/-- Well-formedness of the three `ps` outputs of one findProcessPid
call. -/
def wfFind (c : FindPidCalls) : Prop := wfPs c.ps1 ∧ wfPs c.ps2 ∧ wfPs c.ps3

/-- The status/pid consistency invariant of a Program: running means a
pid is on hand, and any non-running status means the pid is cleared. -/
def PInv (p : ProgramSt) : Prop :=
  (p.status = ProgramStatus.running → p.pid.isSome = true) ∧
  (p.status ≠ ProgramStatus.running → p.pid = none)

instance (e : ExecResult) : Decidable (wfPs e) := by
  unfold wfPs
  infer_instance

instance (c : FindPidCalls) : Decidable (wfFind c) := by
  unfold wfFind
  infer_instance

instance (p : ProgramSt) : Decidable (PInv p) := by
  unfold PInv
  infer_instance

/-! ### Auth tokens (WebSocketServer) -/

/-- One stored terminal auth token.  Times are millisecond epochs. -/
structure AuthToken where
  token : String
  socketId : String
  createdAt : Nat
  expiresAt : Nat
deriving Repr, DecidableEq

/-- The authTokens array of the WebSocketServer. -/
abbrev TokenStore := List AuthToken

/-- Token lifetime: 5 minutes, in milliseconds. -/
def tokenLifetimeMs : Nat := 5 * 60 * 1000

/-- WebSocketServer.generateAuthToken: store a fresh token for the
requesting socket expiring tokenLifetimeMs from now; the reply carries
the token and its remaining lifetime in whole seconds. -/
def generateAuthToken (store : TokenStore) (socketId : String) (now : Nat)
    (fresh : String) : TokenStore × String × Nat :=
  let expiresAt := now + tokenLifetimeMs
  (store ++ [{ token := fresh, socketId := socketId,
               createdAt := now, expiresAt := expiresAt }],
   fresh, (expiresAt - now) / 1000)

/-- WebSocketServer.validateAuthToken: find the first stored entry with
this token string; reject when absent or when its expiry instant lies
strictly in the past. -/
def validateAuthToken (store : TokenStore) (token : String) (now : Nat) : Bool :=
  match store.find? (fun t => t.token == token) with
  | none => false
  | some a => !(decide (a.expiresAt < now))

/-- The disconnect handler: drop every token issued to the departing
socket. -/
def handleDisconnect (store : TokenStore) (socketId : String) : TokenStore :=
  store.filter (fun t => !(t.socketId == socketId))

/-- WebSocketServer.cleanExpiredTokens (runs each minute): keep the
tokens whose expiry lies strictly in the future. -/
def cleanExpiredTokens (store : TokenStore) (now : Nat) : TokenStore :=
  store.filter (fun t => decide (now < t.expiresAt))

/-! ### Concrete fixtures used by witnesses and counterexamples -/

/-- A delivery environment where no socket send throws. -/
def noFail : String → Bool := fun _ => false

/-- A delivery environment where exactly the socket sA throws. -/
def failA : String → Bool := fun s => s == "sA"

/-- A terminal with two attached viewers, for fan-out checks. -/
def termTwo : TerminalInstance :=
  { id := "t1", pid := 7, connections := [("cA", "sA"), ("cB", "sB")],
    createdAt := "2025-01-01T00:00:00.000Z", initialCommand := ["bash"],
    buffer := ["x"], screenName := none, programName := none }

/-- Server state holding termTwo. -/
def stTwo : ServerState := { terminals := [termTwo], socketToTerminalMap := [] }

/-- A terminal with one attached viewer, for teardown checks. -/
def termOne : TerminalInstance :=
  { id := "t1", pid := 7, connections := [("c1", "s1")],
    createdAt := "2025-01-01T00:00:00.000Z", initialCommand := ["bash"],
    buffer := [], screenName := none, programName := none }

/-- Server state holding termOne. -/
def stOne : ServerState := { terminals := [termOne], socketToTerminalMap := [] }

/-- A terminal with prior output chunks a, b, c and no viewers. -/
def termBuf : TerminalInstance :=
  { id := "t1", pid := 7, connections := [],
    createdAt := "2025-01-01T00:00:00.000Z", initialCommand := ["bash"],
    buffer := ["a", "b", "c"], screenName := none, programName := none }

/-- Server state holding termBuf. -/
def stBuf : ServerState := { terminals := [termBuf], socketToTerminalMap := [] }

/-- A fresh terminal with an empty buffer and one viewer. -/
def termEmpty : TerminalInstance :=
  { id := "t1", pid := 7, connections := [("c1", "s1")],
    createdAt := "2025-01-01T00:00:00.000Z", initialCommand := ["bash"],
    buffer := [], screenName := none, programName := none }

/-- Server state holding termEmpty. -/
def stEmpty : ServerState := { terminals := [termEmpty], socketToTerminalMap := [] }

/-- A program configured to stop with SIGHUP, believed running with an
active screen but no pid on hand. -/
def pNoPid : ProgramSt :=
  { name := "web", command := "node server.js", screenName := "web",
    stopMethod := StopMethod.SIGHUP, pid := none,
    status := ProgramStatus.running, screenActive := true }

/-- Oracle for stopping pNoPid: the screen session is listed alive but
every `ps` pipeline comes back blank, and after the Ctrl-C fallback the
session is gone. -/
def cNoPid : StopCalls :=
  { find1 := { screen := ⟨false, "12345.web\t(Detached)"⟩,
               ps1 := ⟨false, ""⟩, ps2 := ⟨false, ""⟩, ps3 := ⟨false, ""⟩ },
    ctrl := { screenCheck := ⟨false, ""⟩, stuff := ⟨false, ""⟩,
              find := { screen := ⟨false, ""⟩, ps1 := ⟨false, ""⟩,
                        ps2 := ⟨false, ""⟩, ps3 := ⟨false, ""⟩ } },
    killOk := true,
    find2 := { screen := ⟨false, ""⟩, ps1 := ⟨false, ""⟩,
               ps2 := ⟨false, ""⟩, ps3 := ⟨false, ""⟩ } }

/-- A program with a resolved pid, configured to stop with SIGHUP. -/
def pWithPid : ProgramSt :=
  { name := "web", command := "node server.js", screenName := "web",
    stopMethod := StopMethod.SIGHUP, pid := some 42,
    status := ProgramStatus.running, screenActive := true }

/-- Oracle for stopping pWithPid: after the signal the process and
session are gone. -/
def cWithPid : StopCalls :=
  { find1 := { screen := ⟨false, ""⟩, ps1 := ⟨false, ""⟩,
               ps2 := ⟨false, ""⟩, ps3 := ⟨false, ""⟩ },
    ctrl := { screenCheck := ⟨false, ""⟩, stuff := ⟨false, ""⟩,
              find := { screen := ⟨false, ""⟩, ps1 := ⟨false, ""⟩,
                        ps2 := ⟨false, ""⟩, ps3 := ⟨false, ""⟩ } },
    killOk := true,
    find2 := { screen := ⟨false, ""⟩, ps1 := ⟨false, ""⟩,
               ps2 := ⟨false, ""⟩, ps3 := ⟨false, ""⟩ } }

/-- A stopped program about to be started. -/
def pStart : ProgramSt :=
  { name := "api", command := "node api.js", screenName := "api",
    stopMethod := StopMethod.SIGHUP, pid := none,
    status := ProgramStatus.stopped, screenActive := false }

/-- Oracle for starting pStart: the screen session gets created and
answers the liveness checks, the command is sent, but every `ps`
pipeline of the post-start pid resolution comes back blank. -/
def cStart : StartCalls :=
  { find1 := { screen := ⟨false, ""⟩, ps1 := ⟨false, ""⟩,
               ps2 := ⟨false, ""⟩, ps3 := ⟨false, ""⟩ },
    screenList := ⟨true, ""⟩,
    screenCreate := ⟨false, ""⟩,
    screenCheck := ⟨false, "12345.api\t(Detached)"⟩,
    stuff := ⟨false, ""⟩,
    find2 := { screen := ⟨false, "12345.api\t(Detached)"⟩,
               ps1 := ⟨false, ""⟩, ps2 := ⟨false, ""⟩, ps3 := ⟨false, ""⟩ } }

/-- A running program with an active screen session and resolved pid. -/
def pMon : ProgramSt :=
  { name := "api", command := "node api.js", screenName := "api",
    stopMethod := StopMethod.SIGINT, pid := some 55,
    status := ProgramStatus.running, screenActive := true }

/-- Oracle for monitoring pMon: the session stays alive, the pid
resolves, and the signal-0 probe succeeds. -/
def cMon : MonitorCalls :=
  { screen1 := ⟨false, "12345.api\t(Detached)"⟩,
    find1 := { screen := ⟨false, "12345.api\t(Detached)"⟩,
               ps1 := ⟨false, " 55\n"⟩, ps2 := ⟨false, ""⟩, ps3 := ⟨false, ""⟩ },
    alive := true,
    screen2 := ⟨false, ""⟩,
    find2 := { screen := ⟨false, ""⟩, ps1 := ⟨false, ""⟩,
               ps2 := ⟨false, ""⟩, ps3 := ⟨false, ""⟩ } }

/-- Oracle for a standalone findProcessPid call on pMon. -/
def cFind : FindPidCalls :=
  { screen := ⟨false, "12345.api\t(Detached)"⟩,
    ps1 := ⟨false, " 55\n"⟩, ps2 := ⟨false, ""⟩, ps3 := ⟨false, ""⟩ }

/-- A token store holding one token that expires at epoch 300000. -/
def stTok : TokenStore :=
  [{ token := "tk", socketId := "s1", createdAt := 0, expiresAt := 300000 }]

/-- Resolution result delivering a foreground process name. -/
def psVim : ExecResult := ⟨false, "vim\n"⟩

/-! ### Helper lemmas -/

/-- find? commutes with a map that preserves the predicate. -/
lemma find?_map_pres {α : Type} (p : α → Bool) (f : α → α) (l : List α)
    (hf : ∀ a, p (f a) = p a) : (l.map f).find? p = (l.find? p).map f := by
  induction l with
  | nil => rfl
  | cons a l ih =>
    simp only [List.map_cons, List.find?]
    rw [hf a]
    cases h : p a
    · simpa using ih
    · rfl

/-- find? over an append whose first part has no match. -/
lemma find?_append_none {α : Type} (p : α → Bool) (l₁ l₂ : List α)
    (h : l₁.find? p = none) : (l₁ ++ l₂).find? p = l₂.find? p := by
  induction l₁ with
  | nil => rfl
  | cons a l ih =>
    simp only [List.find?] at h ⊢
    cases ha : p a
    · rw [ha] at h
      exact ih h
    · rw [ha] at h
      exact absurd h (by simp)

/-- pushChunk always keeps exactly the last 1000 elements of the
extended buffer. -/
lemma pushChunk_eq_drop (b : List String) (a : String) :
    pushChunk b a = (b ++ [a]).drop ((b ++ [a]).length - 1000) := by
  unfold pushChunk
  by_cases h : (b ++ [a]).length > 1000
  · rw [if_pos h]
  · rw [if_neg h]
    have h0 : (b ++ [a]).length - 1000 = 0 := by omega
    rw [h0, List.drop_zero]

/-- Folding the onData buffer update over a chunk sequence, starting
empty, yields exactly the last 1000 chunks. -/
lemma foldl_pushChunk_eq (cs : List String) :
    cs.foldl pushChunk [] = cs.drop (cs.length - 1000) := by
  induction cs using List.reverseRecOn with
  | nil => rfl
  | append_singleton l a ih =>
    rw [List.foldl_append, List.foldl_cons, List.foldl_nil, ih, pushChunk_eq_drop]
    have h1 : ((l.drop (l.length - 1000)) ++ [a]).drop
          (((l.drop (l.length - 1000)) ++ [a]).length - 1000)
        = (l.drop (l.length - 1000)).drop
            (((l.drop (l.length - 1000)) ++ [a]).length - 1000) ++ [a] :=
      List.drop_append_of_le_length (by simp [List.length_append, List.length_drop])
    have h2 : (l ++ [a]).drop ((l ++ [a]).length - 1000)
        = l.drop ((l ++ [a]).length - 1000) ++ [a] :=
      List.drop_append_of_le_length (by simp [List.length_append])
    rw [h1, h2]
    have hn1 : (l.drop (l.length - 1000) ++ [a]).length - 1000
        = (l.length - (l.length - 1000) + 1) - 1000 := by
      simp [List.length_append, List.length_drop]
    have hn2 : (l ++ [a]).length - 1000 = (l.length + 1) - 1000 := by
      simp [List.length_append]
    rw [hn1, hn2, List.drop_drop]
    have harith : l.length - 1000 + (l.length - (l.length - 1000) + 1 - 1000)
        = l.length + 1 - 1000 := by omega
    rw [harith]

/-- The onData handler rewrites exactly the addressed terminal,
pushing the chunk onto its buffer. -/
lemma getTerminal_handleData (st : ServerState) (tid data : String)
    (fails : String → Bool) :
    getTerminal (handleData st tid data fails).1.terminals tid =
      (getTerminal st.terminals tid).map
        (fun t => { t with buffer := pushChunk t.buffer data }) := by
  show getTerminal (st.terminals.map _) tid = _
  unfold getTerminal
  rw [find?_map_pres _ _ _ (fun t => by cases h : t.id == tid <;> simp [h])]
  cases h : st.terminals.find? (fun t => t.id == tid) with
  | none => rfl
  | some t =>
    have ht0 := List.find?_some h
    have ht : (t.id == tid) = true := ht0
    simp only [Option.map_some']
    simp [ht]

/-- Processing a chunk sequence folds pushChunk over the addressed
terminal buffer. -/
lemma getTerminal_processChunks (st : ServerState) (tid : String)
    (fails : String → Bool) (cs : List String) :
    getTerminal (processChunks st tid fails cs).terminals tid =
      (getTerminal st.terminals tid).map
        (fun t => { t with buffer := cs.foldl pushChunk t.buffer }) := by
  induction cs generalizing st with
  | nil =>
    cases h : getTerminal st.terminals tid <;> simp [processChunks, h]
  | cons c cs ih =>
    show getTerminal (processChunks (handleData st tid c fails).1 tid fails cs).terminals tid = _
    rw [ih, getTerminal_handleData]
    cases h : getTerminal st.terminals tid <;> simp [List.foldl_cons]

/-- countEmits distributes over trace concatenation. -/
lemma countEmits_append (tr1 tr2 : List Action) (s nm : String) :
    countEmits (tr1 ++ tr2) s nm = countEmits tr1 s nm + countEmits tr2 s nm :=
  List.countP_append _ _ _

/-- Counting deliveries of one event name inside a per-connection emit
fan-out: the count is the multiplicity of the socket among the
connection sockets when the names agree, zero otherwise. -/
lemma countEmits_map_emit (conns : List (String × String)) (nm : String)
    (pl : String × String → Payload) (s nm' : String) :
    countEmits (conns.map (fun c => Action.emit c.2 nm (pl c))) s nm' =
      if nm = nm' then (conns.map Prod.snd).count s else 0 := by
  unfold countEmits
  rw [List.countP_map]
  by_cases h : nm = nm'
  · subst h
    rw [if_pos rfl, List.count, List.countP_map]
    congr 1
    funext c
    simp [isEmitTo]
  · rw [if_neg h]
    rw [List.countP_eq_zero.mpr]
    intro a ha
    simp only [Function.comp_apply, isEmitTo]
    simp [h]

/-- With pairwise distinct sockets, a per-connection fan-out delivers
the event exactly once to each member socket. -/
lemma countEmits_map_emit_one (conns : List (String × String)) (nm : String)
    (pl : String × String → Payload) (c : String × String)
    (hnd : (conns.map Prod.snd).Nodup) (hmem : c ∈ conns) :
    countEmits (conns.map (fun e => Action.emit e.2 nm (pl e))) c.2 nm = 1 := by
  rw [countEmits_map_emit, if_pos rfl]
  exact List.count_eq_one_of_mem hnd (List.mem_map_of_mem Prod.snd hmem)

/-- broadcastOutput only ever emits events named "output". -/
lemma countEmits_broadcastOutput (st : ServerState) (tid data : String)
    (fails : String → Bool) (s nm : String) (h : nm ≠ "output") :
    countEmits (broadcastOutput st tid data fails) s nm = 0 := by
  unfold broadcastOutput
  cases getTerminal st.terminals tid with
  | none => rfl
  | some t =>
    rw [countEmits, List.countP_map, List.countP_eq_zero.mpr]
    intro c hc
    simp only [Function.comp_apply]
    by_cases hf : fails c.2 <;> simp [hf, isEmitTo, Ne.symm h]

/-- No emit action contributes to the removal count. -/
lemma removalCount_map_emit (conns : List (String × String)) (nm : String)
    (pl : String × String → Payload) (tid : String) :
    removalCount (conns.map (fun c => Action.emit c.2 nm (pl c))) tid = 0 := by
  rw [removalCount, List.countP_map, List.countP_eq_zero.mpr]
  intro c hc
  simp [Function.comp_apply]

/-- broadcastOutput contributes nothing to the removal count. -/
lemma removalCount_broadcastOutput (st : ServerState) (tid data : String)
    (fails : String → Bool) (t : String) :
    removalCount (broadcastOutput st tid data fails) t = 0 := by
  unfold broadcastOutput
  cases getTerminal st.terminals tid with
  | none => rfl
  | some term =>
    rw [removalCount, List.countP_map, List.countP_eq_zero.mpr]
    intro c hc
    by_cases hf : fails c.2 <;> simp [hf]

/-- removalCount distributes over trace concatenation. -/
lemma removalCount_append (tr1 tr2 : List Action) (tid : String) :
    removalCount (tr1 ++ tr2) tid = removalCount tr1 tid + removalCount tr2 tid :=
  List.countP_append _ _ _

/-- A registry delete succeeds exactly when the id is present. -/
lemma deleteTerminal_success (ts : List TerminalInstance) (tid : String)
    (t : TerminalInstance) (h : getTerminal ts tid = some t) :
    (deleteTerminal ts tid).2 = true := by
  have hm := List.mem_of_find?_eq_some h
  have hp0 := List.find?_some h
  have hp : (t.id == tid) = true := hp0
  exact List.any_eq_true.mpr ⟨t, hm, hp⟩

/-- After a registry delete, the id no longer resolves. -/
lemma getTerminal_deleteTerminal (ts : List TerminalInstance) (tid : String) :
    getTerminal (deleteTerminal ts tid).1 tid = none := by
  apply List.find?_eq_none.mpr
  intro t ht
  have := (List.mem_filter.mp ht).2
  simp only [Bool.not_eq_true'] at this
  simp [this]

/-- No terminal with the deleted id remains, so a second delete
reports no removal. -/
lemma deleteTerminal_twice (ts : List TerminalInstance) (tid : String) :
    (deleteTerminal (deleteTerminal ts tid).1 tid).2 = false := by
  apply List.any_eq_false.mpr
  intro t ht
  have := (List.mem_filter.mp ht).2
  simp only [Bool.not_eq_true'] at this
  simp [this]

/-- Updating the registry entry found under an id rewrites exactly the
looked-up terminal. -/
lemma getTerminal_update (ts : List TerminalInstance) (tid : String)
    (upd : TerminalInstance) (terminal : TerminalInstance)
    (h : getTerminal ts tid = some terminal) (hupd : upd.id = terminal.id) :
    getTerminal (ts.map (fun t => if t.id == tid then upd else t)) tid = some upd := by
  have ht0 := List.find?_some h
  have ht : (terminal.id == tid) = true := ht0
  unfold getTerminal at h ⊢
  rw [find?_map_pres]
  · rw [h]
    simp only [Option.map_some']
    simp [ht]
  · intro t
    cases hq : t.id == tid
    · simp [hq]
    · simp [hq, hupd, ht]

/-- countEmits over a cons. -/
lemma countEmits_cons (a : Action) (tr : List Action) (s nm : String) :
    countEmits (a :: tr) s nm =
      countEmits tr s nm + (if isEmitTo a s nm then 1 else 0) :=
  List.countP_cons _ _ _

/-- removalCount over a cons. -/
lemma removalCount_cons (a : Action) (tr : List Action) (tid : String) :
    removalCount (a :: tr) tid =
      removalCount tr tid +
        (if (match a with
             | Action.registryDelete t removed => t == tid && removed
             | _ => false) then 1 else 0) :=
  List.countP_cons _ _ _

/-- An output fan-out (with its per-connection try/catch) never emits
an event of a different name. -/
lemma countEmits_map_output (conns : List (String × String)) (fails : String → Bool)
    (data s nm : String) (h : nm ≠ "output") :
    countEmits (conns.map (fun c =>
      if fails c.2 then Action.emitFailed c.2 "output"
      else Action.emit c.2 "output" (Payload.str data))) s nm = 0 := by
  rw [countEmits, List.countP_map, List.countP_eq_zero.mpr]
  intro c hc
  by_cases hf : fails c.2 <;> simp [hf, isEmitTo, Ne.symm h]

/-- An output fan-out contributes nothing to the removal count. -/
lemma removalCount_map_output (conns : List (String × String)) (fails : String → Bool)
    (data tid : String) :
    removalCount (conns.map (fun c =>
      if fails c.2 then Action.emitFailed c.2 "output"
      else Action.emit c.2 "output" (Payload.str data))) tid = 0 := by
  rw [removalCount, List.countP_map, List.countP_eq_zero.mpr]
  intro c hc
  by_cases hf : fails c.2 <;> simp [hf]

/-- Closing a registered terminal: resulting state and trace. -/
lemma closeTerminal_trace (st : ServerState) (tid : String)
    (terminal : TerminalInstance) (h : getTerminal st.terminals tid = some terminal) :
    closeTerminal st tid =
      ({ st with terminals := (deleteTerminal st.terminals tid).1 },
       Action.ptyKill tid ::
         (terminal.connections.map (fun c => Action.emit c.2 "terminal_closed" Payload.empty) ++
          [Action.registryDelete tid (deleteTerminal st.terminals tid).2,
           Action.nsEmit "terminalListChanged"])) := by
  unfold closeTerminal
  rw [h]
  rfl

/-- The onExit handler when the registry entry is already gone: no
output broadcast, but the captured connections still get
terminal_exited. -/
lemma handleExit_gone_trace (st : ServerState) (captured : TerminalInstance)
    (fails : String → Bool)
    (hnone : getTerminal st.terminals captured.id = none) :
    handleExit st captured fails =
      ({ st with terminals := (deleteTerminal st.terminals captured.id).1 },
       captured.connections.map (fun c => Action.emit c.2 "terminal_exited" Payload.empty) ++
       [Action.registryDelete captured.id (deleteTerminal st.terminals captured.id).2,
        Action.nsEmit "terminalListChanged"]) := by
  unfold handleExit broadcastOutput
  rw [hnone]
  rfl

/-- With pairwise distinct token strings, validation succeeds exactly
when some stored entry carries the token and its expiry instant has
not passed (valid at the exact expiry instant, since the code rejects
only strictly past expiries). -/
lemma validateAuthToken_iff (store : TokenStore) (tok : String) (now : Nat)
    (hnd : store.Pairwise (fun a b => a.token ≠ b.token)) :
    validateAuthToken store tok now = true ↔
      ∃ a ∈ store, a.token = tok ∧ now ≤ a.expiresAt := by
  induction store with
  | nil => simp [validateAuthToken]
  | cons a rest ih =>
    rcases List.pairwise_cons.mp hnd with ⟨hhead, htail⟩
    by_cases hat : a.token = tok
    · have hfind : (a :: rest).find? (fun t => t.token == tok) = some a :=
        List.find?_cons_of_pos _ (by simp [hat])
      unfold validateAuthToken
      rw [hfind]
      constructor
      · intro hv
        have hle : now ≤ a.expiresAt := by
          simp only [Bool.not_eq_true', decide_eq_false_iff_not] at hv
          omega
        exact ⟨a, List.mem_cons_self a rest, hat, hle⟩
      · rintro ⟨b, hb, hbt, hble⟩
        rcases List.mem_cons.mp hb with rfl | hbr
        · simp only [Bool.not_eq_true', decide_eq_false_iff_not]
          omega
        · exact absurd (hat.trans hbt.symm) (hhead b hbr)
    · have hfind : (a :: rest).find? (fun t => t.token == tok) =
          rest.find? (fun t => t.token == tok) :=
        List.find?_cons_of_neg _ (by simp [hat])
      unfold validateAuthToken
      rw [hfind]
      have hrest : (match rest.find? (fun t => t.token == tok) with
          | none => false
          | some a => !(decide (a.expiresAt < now))) =
          validateAuthToken rest tok now := rfl
      rw [hrest, ih htail]
      constructor
      · rintro ⟨b, hb, hbt, hble⟩
        exact ⟨b, List.mem_cons_of_mem a hb, hbt, hble⟩
      · rintro ⟨b, hb, hbt, hble⟩
        rcases List.mem_cons.mp hb with rfl | hbr
        · exact absurd hbt hat
        · exact ⟨b, hbr, hbt, hble⟩

/-- After a disconnect removes a socket's tokens, a token that only
that socket ever held no longer validates. -/
lemma validate_after_disconnect (store : TokenStore) (sid tok : String) (now : Nat)
    (h : ∀ a ∈ store, a.token = tok → a.socketId = sid) :
    validateAuthToken (handleDisconnect store sid) tok now = false := by
  have hfind : (handleDisconnect store sid).find? (fun t => t.token == tok) = none := by
    apply List.find?_eq_none.mpr
    intro x hx
    rcases List.mem_filter.mp hx with ⟨hmem, hkeep⟩
    intro hbeq
    have hxt : x.token = tok := by simpa using hbeq
    have hxs := h x hmem hxt
    rw [hxs] at hkeep
    simp at hkeep
  unfold validateAuthToken
  rw [hfind]

/-- findProcessPid never touches the stop method or session name. -/
lemma findProcessPid_pres (p : ProgramSt) (c : FindPidCalls) :
    (findProcessPid p c).1.stopMethod = p.stopMethod ∧
    (findProcessPid p c).1.screenName = p.screenName := by
  unfold findProcessPid
  by_cases ha : (!(checkScreenActive p c.screen).2) = true
  · rw [if_pos ha]
    exact ⟨rfl, rfl⟩
  · rw [if_neg ha]
    cases psAttempt c.ps1 with
    | some v => exact ⟨rfl, rfl⟩
    | none =>
      cases psAttempt c.ps2 with
      | some v => exact ⟨rfl, rfl⟩
      | none =>
        cases psAttempt c.ps3 with
        | some v => exact ⟨rfl, rfl⟩
        | none => exact ⟨rfl, rfl⟩

/-- A successful `ps` attempt with well-formed output yields a real
pid. -/
lemma psAttempt_isSome (e : ExecResult) (hwf : wfPs e) (v : Option Nat)
    (h : psAttempt e = some v) : v.isSome = true := by
  unfold psAttempt at h
  by_cases hc : (e.err || jsTrim e.stdout == "") = true
  · rw [if_pos hc] at h
    exact absurd h (by simp)
  · rw [if_neg hc] at h
    have hv : v = parsePid e.stdout := (Option.some_inj.mp h).symm
    subst hv
    rcases hwf with h1 | h2 | h3
    · exact absurd (by simp [h1]) hc
    · exact absurd (by simp [h2]) hc
    · exact h3

/-- With well-formed `ps` outputs, findProcessPid lands in one of two
consistent states: cleared-and-stopped, or running with a pid under a
live screen session. -/
lemma findProcessPid_shape (p : ProgramSt) (c : FindPidCalls) (hwf : wfFind c) :
    ((findProcessPid p c).1.status = ProgramStatus.stopped ∧
     (findProcessPid p c).1.pid = none) ∨
    ((findProcessPid p c).1.status = ProgramStatus.running ∧
     (findProcessPid p c).1.pid.isSome = true ∧
     (findProcessPid p c).1.screenActive = true) := by
  obtain ⟨w1, w2, w3⟩ := hwf
  unfold findProcessPid
  by_cases ha : (!(checkScreenActive p c.screen).2) = true
  · rw [if_pos ha]
    exact Or.inl ⟨rfl, rfl⟩
  · rw [if_neg ha]
    have hact : (checkScreenActive p c.screen).2 = true := by
      revert ha
      cases (checkScreenActive p c.screen).2 <;> simp
    cases h1 : psAttempt c.ps1 with
    | some v =>
      exact Or.inr ⟨rfl, psAttempt_isSome c.ps1 w1 v h1, hact⟩
    | none =>
      cases h2 : psAttempt c.ps2 with
      | some v =>
        exact Or.inr ⟨rfl, psAttempt_isSome c.ps2 w2 v h2, hact⟩
      | none =>
        cases h3 : psAttempt c.ps3 with
        | some v =>
          exact Or.inr ⟨rfl, psAttempt_isSome c.ps3 w3 v h3, hact⟩
        | none => exact Or.inl ⟨rfl, rfl⟩

/-- The status/pid invariant, extended with the screen-inactive
consequence, after any findProcessPid call with well-formed output. -/
lemma findProcessPid_inv (p : ProgramSt) (c : FindPidCalls) (hwf : wfFind c) :
    PInv (findProcessPid p c).1 ∧
    ((findProcessPid p c).1.screenActive = false →
      (findProcessPid p c).1.status = ProgramStatus.stopped ∧
      (findProcessPid p c).1.pid = none) := by
  rcases findProcessPid_shape p c hwf with ⟨hs, hp⟩ | ⟨hs, hp, hsa⟩
  · refine ⟨⟨?_, ?_⟩, ?_⟩
    · intro hr
      rw [hs] at hr
      exact absurd hr (by decide)
    · intro _
      exact hp
    · intro _
      exact ⟨hs, hp⟩
  · refine ⟨⟨?_, ?_⟩, ?_⟩
    · intro _
      exact hp
    · intro hr
      exact absurd hs hr
    · intro hfalse
      rw [hsa] at hfalse
      exact absurd hfalse (by decide)

/-- The status/pid invariant after a monitor pass with well-formed
`ps` outputs, together with the screen-inactive consequence. -/
lemma monitor_inv (p : ProgramSt) (c : MonitorCalls) (hp : PInv p)
    (h1 : wfFind c.find1) (h2 : wfFind c.find2) :
    PInv (monitor p c) ∧
    ((monitor p c).screenActive = false →
      (monitor p c).status = ProgramStatus.stopped ∧ (monitor p c).pid = none) := by
  unfold monitor
  by_cases hb1 : (p.screenActive && !(checkScreenActive p c.screen1).2) = true
  · rw [if_pos hb1]
    exact ⟨⟨(fun h => nomatch h), (fun _ => rfl)⟩, (fun _ => ⟨rfl, rfl⟩)⟩
  · rw [if_neg hb1]
    by_cases hb2 : (!(checkScreenActive p c.screen1).2) = true
    · rw [if_pos hb2]
      by_cases hb3 : (checkScreenActive p c.screen1).1.status ≠ ProgramStatus.stopped
      · rw [if_pos hb3]
        exact ⟨⟨(fun h => nomatch h), (fun _ => rfl)⟩, (fun _ => ⟨rfl, rfl⟩)⟩
      · rw [if_neg hb3]
        push_neg at hb3
        have hps : p.status = ProgramStatus.stopped := hb3
        have hpid : p.pid = none := hp.2 (by rw [hps]; decide)
        refine ⟨⟨?_, ?_⟩, ?_⟩
        · intro hr
          have : p.status = ProgramStatus.running := hr
          rw [hps] at this
          exact absurd this (by decide)
        · intro _
          exact hpid
        · intro _
          exact ⟨hps, hpid⟩
    · rw [if_neg hb2]
      rcases findProcessPid_shape (checkScreenActive p c.screen1).1 c.find1 h1 with
        ⟨hs, hpid⟩ | ⟨hs, hpsome, hsa⟩
      · rw [hpid]
        have hinv := findProcessPid_inv (checkScreenActive p c.screen1).1 c.find1 h1
        exact ⟨hinv.1, hinv.2⟩
      · obtain ⟨n, hn⟩ := Option.isSome_iff_exists.mp hpsome
        rw [hn]
        by_cases hal : c.alive = true
        · rw [if_pos hal]
          refine ⟨⟨?_, ?_⟩, ?_⟩
          · intro _
            show ((findProcessPid (checkScreenActive p c.screen1).1 c.find1).1.pid).isSome = true
            rw [hn]
            rfl
          · intro hr
            exact absurd rfl hr
          · intro hfalse
            have : (findProcessPid (checkScreenActive p c.screen1).1 c.find1).1.screenActive = false :=
              hfalse
            rw [hsa] at this
            exact absurd this (by decide)
        · rw [if_neg hal]
          by_cases hb4 : (checkScreenActive
              (updateStatus
                { (findProcessPid (checkScreenActive p c.screen1).1 c.find1).1 with pid := none }
                ProgramStatus.stopped) c.screen2).2 = true
          · rw [if_pos hb4]
            have hinv := findProcessPid_inv
              (checkScreenActive
                (updateStatus
                  { (findProcessPid (checkScreenActive p c.screen1).1 c.find1).1 with pid := none }
                  ProgramStatus.stopped) c.screen2).1 c.find2 h2
            exact ⟨hinv.1, hinv.2⟩
          · rw [if_neg hb4]
            exact ⟨⟨(fun h => nomatch h), (fun _ => rfl)⟩, (fun _ => ⟨rfl, rfl⟩)⟩

/-! ### Claim theorems -/

/-- C1: the createTerminal RPC performs no dangerous-command
validation: called with shell "rm -rf /" it spawns a PTY running
exactly that string, grows the registry by one, and returns a success
snapshot — there is no rejection path.  This contradicts the claim (and
the design document, which promises a deny-list), so the claim is
recorded as a code bug with this theorem evaluating the code at the
failing input. -/
theorem createTerminal_accepts_rm_rf :
    ((createTerminal ⟨[], []⟩ ⟨none, some "rm -rf /"⟩ "tid-1" 1234
        "2025-01-01T00:00:00.000Z").2.2.head? = some (Action.spawn ["rm -rf /"])) ∧
    ((createTerminal ⟨[], []⟩ ⟨none, some "rm -rf /"⟩ "tid-1" 1234
        "2025-01-01T00:00:00.000Z").1.terminals.length = 1) ∧
    ((createTerminal ⟨[], []⟩ ⟨none, some "rm -rf /"⟩ "tid-1" 1234
        "2025-01-01T00:00:00.000Z").2.1.id = "tid-1") := by
  decide

/-- C5: after any sequence of output events on a session that started
with an empty buffer, the buffer holds exactly the most recent
min(N, 1000) chunks, in production order (so never more than 1000). -/
theorem buffer_cap_invariant (st : ServerState) (tid : String)
    (fails : String → Bool) (terminal : TerminalInstance)
    (chunks : List String)
    (h : getTerminal st.terminals tid = some terminal)
    (h0 : terminal.buffer = []) :
    getTerminal (processChunks st tid fails chunks).terminals tid =
      some { terminal with buffer := chunks.drop (chunks.length - 1000) } ∧
    (chunks.drop (chunks.length - 1000)).length = min chunks.length 1000 := by
  constructor
  · rw [getTerminal_processChunks, h]
    simp only [Option.map_some']
    rw [h0, foldl_pushChunk_eq]
  · rw [List.length_drop]
    omega

/-- C5 witness: three chunks a, b, c leave the buffer holding exactly
those three chunks. -/
theorem buffer_cap_invariant_witness :
    getTerminal (processChunks stEmpty "t1" noFail ["a", "b", "c"]).terminals "t1" =
      some { termEmpty with
             buffer := (["a", "b", "c"] : List String).drop
               ((["a", "b", "c"] : List String).length - 1000) } ∧
    ((["a", "b", "c"] : List String).drop
        ((["a", "b", "c"] : List String).length - 1000)).length =
      min (["a", "b", "c"] : List String).length 1000 :=
  buffer_cap_invariant stEmpty "t1" noFail termEmpty ["a", "b", "c"]
    (by decide) (by decide)

/-- C6: the onData handler first appends the chunk to the session
buffer (the append heads the trace and the stored buffer is updated),
then delivers the identical chunk to every currently attached
connection; a send that throws on one connection is caught (recorded as
a failed send) and every other connection still receives the chunk. -/
theorem output_fanout (st : ServerState) (tid data : String)
    (fails : String → Bool) (terminal : TerminalInstance)
    (h : getTerminal st.terminals tid = some terminal) :
    ((handleData st tid data fails).2.head? = some (Action.bufferAppend tid data)) ∧
    (getTerminal (handleData st tid data fails).1.terminals tid =
      some { terminal with buffer := pushChunk terminal.buffer data }) ∧
    (∀ c ∈ terminal.connections, fails c.2 = false →
      Action.emit c.2 "output" (Payload.str data) ∈ (handleData st tid data fails).2) ∧
    (∀ c ∈ terminal.connections, fails c.2 = true →
      Action.emitFailed c.2 "output" ∈ (handleData st tid data fails).2) := by
  have hget : getTerminal (handleData st tid data fails).1.terminals tid =
      some { terminal with buffer := pushChunk terminal.buffer data } := by
    rw [getTerminal_handleData, h]
    rfl
  have htr : (handleData st tid data fails).2 =
      Action.bufferAppend tid data ::
        terminal.connections.map (fun c =>
          if fails c.2 then Action.emitFailed c.2 "output"
          else Action.emit c.2 "output" (Payload.str data)) := by
    show Action.bufferAppend tid data ::
        broadcastOutput (handleData st tid data fails).1 tid data fails = _
    unfold broadcastOutput
    rw [hget]
  refine ⟨by rw [htr]; rfl, hget, ?_, ?_⟩
  · intro c hc hf
    rw [htr]
    apply List.mem_cons_of_mem
    have : Action.emit c.2 "output" (Payload.str data) =
        (fun c => if fails c.2 then Action.emitFailed c.2 "output"
          else Action.emit c.2 "output" (Payload.str data)) c := by
      simp [hf]
    rw [this]
    exact List.mem_map_of_mem _ hc
  · intro c hc hf
    rw [htr]
    apply List.mem_cons_of_mem
    have : Action.emitFailed c.2 "output" =
        (fun c => if fails c.2 then Action.emitFailed c.2 "output"
          else Action.emit c.2 "output" (Payload.str data)) c := by
      simp [hf]
    rw [this]
    exact List.mem_map_of_mem _ hc

/-- C3 counterexample: when an explicit close is followed by the
killed process's own exit callback, the single attached connection
receives two close/exit notifications for the session: one
terminal_closed from the close path and one terminal_exited from the
exit path — contradicting "never more than one exit/close
notification". -/
theorem close_exit_race_counterexample :
    countEmits (closeThenExit stOne "t1" noFail).2 "s1" "terminal_exited" +
      countEmits (closeThenExit stOne "t1" noFail).2 "s1" "terminal_closed" = 2 := by
  decide

/-- C3 amended: racing an explicit close with the natural process
exit (in either event-loop order), the registry entry is removed
exactly once (the loser's delete is a no-op); each attached connection
receives exactly one terminal_exited notification; but when the
explicit close runs first, each attached connection additionally
receives exactly one terminal_closed notification, because closeTerminal
emits terminal_closed without clearing the connection set the exit
callback later walks. -/
theorem close_exit_race (st : ServerState) (tid : String)
    (fails : String → Bool) (terminal : TerminalInstance)
    (h : getTerminal st.terminals tid = some terminal)
    (hnd : (terminal.connections.map Prod.snd).Nodup) :
    (removalCount (closeThenExit st tid fails).2 tid = 1 ∧
     ∀ c ∈ terminal.connections,
       countEmits (closeThenExit st tid fails).2 c.2 "terminal_exited" = 1 ∧
       countEmits (closeThenExit st tid fails).2 c.2 "terminal_closed" = 1) ∧
    (removalCount (exitThenClose st tid fails).2 tid = 1 ∧
     ∀ c ∈ terminal.connections,
       countEmits (exitThenClose st tid fails).2 c.2 "terminal_exited" = 1 ∧
       countEmits (exitThenClose st tid fails).2 c.2 "terminal_closed" = 0) := by
  have hid0 := List.find?_some h
  have hidb : (terminal.id == tid) = true := hid0
  have hideq : terminal.id = tid := by simpa using hidb
  have hdel1 : (deleteTerminal st.terminals tid).2 = true :=
    deleteTerminal_success st.terminals tid terminal h
  -- trace of close-then-exit
  have htr1 : (closeThenExit st tid fails).2 =
      (Action.ptyKill tid ::
        (terminal.connections.map (fun c => Action.emit c.2 "terminal_closed" Payload.empty) ++
         [Action.registryDelete tid true, Action.nsEmit "terminalListChanged"])) ++
      (terminal.connections.map (fun c => Action.emit c.2 "terminal_exited" Payload.empty) ++
       [Action.registryDelete tid false, Action.nsEmit "terminalListChanged"]) := by
    have hs2 : (closeThenExit st tid fails).2 =
        (closeTerminal st tid).2 ++
          (handleExit (closeTerminal st tid).1 terminal fails).2 := by
      unfold closeThenExit
      rw [h]
    have hgone : getTerminal (closeTerminal st tid).1.terminals terminal.id = none := by
      rw [closeTerminal_trace st tid terminal h, hideq]
      exact getTerminal_deleteTerminal st.terminals tid
    rw [hs2, handleExit_gone_trace _ _ _ hgone, closeTerminal_trace st tid terminal h]
    rw [hideq]
    have hflag : (deleteTerminal
        ({ st with terminals := (deleteTerminal st.terminals tid).1 } :
          ServerState).terminals tid).2 = false := deleteTerminal_twice st.terminals tid
    rw [hflag, hdel1]
  -- trace of exit-then-close
  have htr2 : (exitThenClose st tid fails).2 =
      (terminal.connections.map (fun c =>
          if fails c.2 then Action.emitFailed c.2 "output"
          else Action.emit c.2 "output" (Payload.str exitMessage)) ++
       terminal.connections.map (fun c => Action.emit c.2 "terminal_exited" Payload.empty) ++
       [Action.registryDelete tid true, Action.nsEmit "terminalListChanged"]) ++ [] := by
    have hs2 : (exitThenClose st tid fails).2 =
        (handleExit st terminal fails).2 ++
          (closeTerminal (handleExit st terminal fails).1 tid).2 := by
      unfold exitThenClose
      rw [h]
    have hfirst : (handleExit st terminal fails) =
        ({ st with terminals := (deleteTerminal st.terminals terminal.id).1 },
         terminal.connections.map (fun c =>
            if fails c.2 then Action.emitFailed c.2 "output"
            else Action.emit c.2 "output" (Payload.str exitMessage)) ++
         terminal.connections.map (fun c => Action.emit c.2 "terminal_exited" Payload.empty) ++
         [Action.registryDelete terminal.id (deleteTerminal st.terminals terminal.id).2,
          Action.nsEmit "terminalListChanged"]) := by
      unfold handleExit broadcastOutput
      rw [hideq, h]
    have hclose2 : (closeTerminal (handleExit st terminal fails).1 tid).2 = [] := by
      have hgone : getTerminal (handleExit st terminal fails).1.terminals tid = none := by
        rw [hfirst, hideq]
        exact getTerminal_deleteTerminal st.terminals tid
      unfold closeTerminal
      rw [hgone]
    rw [hs2, hclose2, hfirst, hideq, hdel1]
  have hne1 : ("terminal_closed" : String) ≠ "terminal_exited" := by decide
  have hne2 : ("terminal_exited" : String) ≠ "terminal_closed" := by decide
  refine ⟨⟨?_, ?_⟩, ?_, ?_⟩
  · rw [htr1]
    simp only [removalCount_append, removalCount_cons, removalCount_map_emit]
    simp [removalCount]
  · intro c hc
    have h1 := List.count_eq_one_of_mem hnd (List.mem_map_of_mem Prod.snd hc)
    constructor
    · rw [htr1]
      simp only [countEmits_append, countEmits_cons, countEmits_map_emit]
      simp [countEmits, List.countP_cons, isEmitTo, h1, hne1]
    · rw [htr1]
      simp only [countEmits_append, countEmits_cons, countEmits_map_emit]
      simp [countEmits, List.countP_cons, isEmitTo, h1, hne2]
  · rw [htr2]
    simp only [removalCount_append, removalCount_map_output, removalCount_map_emit]
    simp [removalCount, List.countP_cons]
  · intro c hc
    have h1 := List.count_eq_one_of_mem hnd (List.mem_map_of_mem Prod.snd hc)
    have hno1 : ("terminal_exited" : String) ≠ "output" := by decide
    have hno2 : ("terminal_closed" : String) ≠ "output" := by decide
    constructor
    · rw [htr2]
      simp only [countEmits_append, countEmits_map_emit,
        countEmits_map_output _ _ _ _ _ hno1]
      simp [countEmits, List.countP_cons, isEmitTo, h1]
    · rw [htr2]
      simp only [countEmits_append, countEmits_map_emit,
        countEmits_map_output _ _ _ _ _ hno2]
      simp [countEmits, List.countP_cons, isEmitTo, hne2]

/-- C3 witness: for the one-viewer session, either race order removes
the registry entry once; close-then-exit delivers one terminal_exited
and one terminal_closed to the viewer, exit-then-close delivers exactly
one terminal_exited and nothing else. -/
theorem close_exit_race_witness :
    (removalCount (closeThenExit stOne "t1" noFail).2 "t1" = 1) ∧
    (countEmits (closeThenExit stOne "t1" noFail).2 "s1" "terminal_exited" = 1) ∧
    (countEmits (closeThenExit stOne "t1" noFail).2 "s1" "terminal_closed" = 1) ∧
    (removalCount (exitThenClose stOne "t1" noFail).2 "t1" = 1) ∧
    (countEmits (exitThenClose stOne "t1" noFail).2 "s1" "terminal_exited" = 1) ∧
    (countEmits (exitThenClose stOne "t1" noFail).2 "s1" "terminal_closed" = 0) := by
  have hr := close_exit_race stOne "t1" noFail termOne (by decide) (by decide)
  exact ⟨hr.1.1, (hr.1.2 ("c1", "s1") (by decide)).1,
         (hr.1.2 ("c1", "s1") (by decide)).2, hr.2.1,
         (hr.2.2 ("c1", "s1") (by decide)).1,
         (hr.2.2 ("c1", "s1") (by decide)).2⟩

/-- C9: one poller visit to a session (the poller runs on the fixed
3000 ms interval): a failed resolution (exec error or empty output)
changes nothing and emits nothing; a resolved name that is non-empty
and differs from the stored programName is stored and announced to
every attached connection; and a full poller pass applies exactly this
visit to every live session. -/
theorem poller_name_refresh (t : TerminalInstance) (e : ExecResult)
    (st : ServerState) (res : Nat → ExecResult) :
    (pollIntervalMs = 3000) ∧
    (getForegroundProcessName e = none → pollerStep t e = (t, [])) ∧
    (∀ n, getForegroundProcessName e = some n → n ≠ "" →
       t.programName ≠ some n →
       (pollerStep t e).1.programName = some n ∧
       ∀ c ∈ t.connections,
         Action.emit c.2 "programNameChanged" (Payload.obj
           [("terminalId", JVal.str t.id), ("programName", JVal.str n)]) ∈
           (pollerStep t e).2) ∧
    ((pollerPass st res).1.terminals =
       st.terminals.map (fun u => (pollerStep u (res u.pid)).1)) := by
  refine ⟨rfl, ?_, ?_, rfl⟩
  · intro hn
    unfold pollerStep
    rw [hn]
  · intro n hn hne hdiff
    have hstep : pollerStep t e =
        ({ t with programName := some n },
         t.connections.map (fun c =>
           Action.emit c.2 "programNameChanged" (Payload.obj
             [("terminalId", JVal.str t.id), ("programName", JVal.str n)]))) := by
      unfold pollerStep
      rw [hn]
      dsimp only
      rw [if_pos (And.intro hne hdiff)]
    constructor
    · rw [hstep]
    · intro c hc
      rw [hstep]
      exact List.mem_map_of_mem _ hc

/-- C9 witness: a session with stored name none and one viewer, whose
`ps` query answers "vim\n", stores "vim" and notifies the viewer; an
erroring query changes nothing. -/
theorem poller_name_refresh_witness :
    (pollIntervalMs = 3000) ∧
    (pollerStep termOne ⟨true, ""⟩ = (termOne, [])) ∧
    ((pollerStep termOne psVim).1.programName = some "vim") ∧
    (Action.emit "s1" "programNameChanged" (Payload.obj
       [("terminalId", JVal.str "t1"), ("programName", JVal.str "vim")]) ∈
      (pollerStep termOne psVim).2) := by
  have h := poller_name_refresh termOne psVim ⟨[], []⟩ (fun _ => psVim)
  have hfail := poller_name_refresh termOne ⟨true, ""⟩ ⟨[], []⟩ (fun _ => psVim)
  have hsome := h.2.2.1 "vim" (by decide) (by decide) (by decide)
  exact ⟨h.1, hfail.2.1 (by decide), hsome.1,
         hsome.2 ("c1", "s1") (by decide)⟩

/-- C2 counterexample: an attach request for an id absent from an
empty registry does not leave the state unchanged with a not-found
error — it creates a brand-new session (registry grows to one) and no
event named "error" is emitted. -/
theorem attach_unknown_id_counterexample :
    ((createOrAttachTerminal ⟨[], []⟩ "s1" ⟨some "missing", none, none, none⟩
        "f1" 9 "2025-01-01T00:00:00.000Z" noFail).1.terminals.length = 1) ∧
    ((createOrAttachTerminal ⟨[], []⟩ "s1" ⟨some "missing", none, none, none⟩
        "f1" 9 "2025-01-01T00:00:00.000Z" noFail).2.all
      (fun a => !(isEmitNamed a "error")) = true) := by
  decide

/-- C2 amended: an attach request whose session id is not in the
registry emits no error at all; the handler falls through to the
create path, spawning a new PTY from the requested screen/shell (bash
by default), appending a fresh session whose connection set holds
exactly the requesting connection, and acknowledging with
"connected". -/
theorem attach_unknown_id_creates (st : ServerState) (sock : String)
    (d : AttachData) (freshId : String) (spawnPid : Nat) (nowIso : String)
    (fails : String → Bool) (tid : String)
    (hid : d.terminalId = some tid)
    (habs : getTerminal st.terminals tid = none) :
    ((createOrAttachTerminal st sock d freshId spawnPid nowIso fails).1.terminals =
       st.terminals ++
         [{ id := freshId, pid := spawnPid,
            connections := [(d.clientId.getD sock, sock)],
            createdAt := nowIso,
            initialCommand := chooseCommand d.screenName d.shell,
            buffer := [], screenName := d.screenName, programName := none }]) ∧
    (∀ a ∈ (createOrAttachTerminal st sock d freshId spawnPid nowIso fails).2,
       isEmitNamed a "error" = false) ∧
    (Action.emit sock "connected" (Payload.obj
       [("terminalId", JVal.str freshId), ("screenName", jOptStr d.screenName),
        ("connectionCount", JVal.num 1)]) ∈
      (createOrAttachTerminal st sock d freshId spawnPid nowIso fails).2) := by
  have hr : createOrAttachTerminal st sock d freshId spawnPid nowIso fails =
      createNewFromAttach st sock (d.clientId.getD sock) freshId spawnPid nowIso d := by
    unfold createOrAttachTerminal
    rw [hid]
    show (match getTerminal st.terminals tid with
          | some terminal =>
            attachExisting st sock (d.clientId.getD sock) tid terminal fails
          | none =>
            createNewFromAttach st sock (d.clientId.getD sock) freshId spawnPid nowIso d) = _
    rw [habs]
  refine ⟨by rw [hr]; rfl, ?_, ?_⟩
  · intro a ha
    rw [hr] at ha
    unfold createNewFromAttach at ha
    simp only [List.cons_append, List.nil_append, List.mem_cons] at ha
    rcases ha with h | h | ha
    · subst h; rfl
    · subst h; rfl
    · rcases List.mem_append.mp ha with h | h
      · by_cases hs : d.screenName.isNone
        · rw [if_pos hs] at h
          simp only [welcomeWrites, List.mem_cons, List.not_mem_nil, or_false] at h
          rcases h with h | h | h | h <;> subst h <;> rfl
        · rw [if_neg hs] at h
          exact absurd h (List.not_mem_nil a)
      · simp only [List.mem_singleton] at h
        subst h
        simp [isEmitNamed]
  · rw [hr]
    unfold createNewFromAttach
    simp [List.mem_append, List.mem_cons]

/-- C4 counterexample: attaching to a session with prior chunks a, b, c
produces exactly one "connected" acknowledgement, and its payload
carries none of the fields pid, programName, createdAt the claim
requires. -/
theorem attach_ack_fields_counterexample :
    (((createOrAttachTerminal stBuf "s1" ⟨some "t1", none, none, none⟩
         "f1" 0 "2025-01-01T00:00:00.000Z" noFail).2.countP
        (fun a => isEmitNamed a "connected")) = 1) ∧
    ((createOrAttachTerminal stBuf "s1" ⟨some "t1", none, none, none⟩
        "f1" 0 "2025-01-01T00:00:00.000Z" noFail).2.all
      (fun a => !(isEmitNamed a "connected") ||
        (!(payloadHasKey (emitPayload a) "pid") &&
         !(payloadHasKey (emitPayload a) "programName") &&
         !(payloadHasKey (emitPayload a) "createdAt"))) = true) := by
  decide

/-- C4 amended: a successful attach to an existing session appends the
connection to the session's connection set (after dropping any stale
membership for the same client or socket), replays the entire output
buffer as one concatenated output event — the first action of the
call, hence before the acknowledgement and before any later chunk —
and then acknowledges with "connected" carrying the session's id,
screenName and connection count (not pid/programName/createdAt). -/
theorem attach_existing_replay_ack (st : ServerState) (sock : String)
    (d : AttachData) (freshId : String) (spawnPid : Nat) (nowIso : String)
    (fails : String → Bool) (tid : String) (terminal : TerminalInstance)
    (hid : d.terminalId = some tid)
    (hfound : getTerminal st.terminals tid = some terminal) :
    ((createOrAttachTerminal st sock d freshId spawnPid nowIso fails).2 =
       Action.emit sock "output" (Payload.str (String.join terminal.buffer)) ::
       Action.emit sock "connected" (Payload.obj
         [("terminalId", JVal.str terminal.id),
          ("screenName", jOptStr terminal.screenName),
          ("connectionCount", JVal.num
            (terminal.connections.filter
                (fun c => !(c.1 == d.clientId.getD sock || c.2 == sock)) ++
              [(d.clientId.getD sock, sock)]).length)]) ::
       broadcastConnectionCountChange
         (createOrAttachTerminal st sock d freshId spawnPid nowIso fails).1 tid fails) ∧
    (getTerminal
        (createOrAttachTerminal st sock d freshId spawnPid nowIso fails).1.terminals tid =
      some { terminal with connections :=
        (terminal.connections.filter
            (fun c => !(c.1 == d.clientId.getD sock || c.2 == sock)) ++
          [(d.clientId.getD sock, sock)]) }) ∧
    ((d.clientId.getD sock, sock) ∈
      terminal.connections.filter
          (fun c => !(c.1 == d.clientId.getD sock || c.2 == sock)) ++
        [(d.clientId.getD sock, sock)]) := by
  have hr : createOrAttachTerminal st sock d freshId spawnPid nowIso fails =
      attachExisting st sock (d.clientId.getD sock) tid terminal fails := by
    unfold createOrAttachTerminal
    rw [hid]
    show (match getTerminal st.terminals tid with
          | some terminal =>
            attachExisting st sock (d.clientId.getD sock) tid terminal fails
          | none =>
            createNewFromAttach st sock (d.clientId.getD sock) freshId spawnPid nowIso d) = _
    rw [hfound]
  refine ⟨by rw [hr]; rfl, ?_, by simp⟩
  rw [hr]
  show getTerminal (st.terminals.map _) tid = _
  exact getTerminal_update st.terminals tid _ terminal hfound rfl

/-- C4 witness: attaching socket s1 to the session whose buffer holds
a, b, c replays the joined chunks first, acknowledges with the session
id and the new connection count of one, and stores the connection. -/
theorem attach_existing_replay_ack_witness :
    ((createOrAttachTerminal stBuf "s1" ⟨some "t1", none, none, none⟩
        "f1" 0 "2025-01-01T00:00:00.000Z" noFail).2 =
       Action.emit "s1" "output" (Payload.str (String.join ["a", "b", "c"])) ::
       Action.emit "s1" "connected" (Payload.obj
         [("terminalId", JVal.str "t1"), ("screenName", JVal.undef),
          ("connectionCount", JVal.num 1)]) ::
       broadcastConnectionCountChange
         (createOrAttachTerminal stBuf "s1" ⟨some "t1", none, none, none⟩
           "f1" 0 "2025-01-01T00:00:00.000Z" noFail).1 "t1" noFail) ∧
    (getTerminal
        (createOrAttachTerminal stBuf "s1" ⟨some "t1", none, none, none⟩
          "f1" 0 "2025-01-01T00:00:00.000Z" noFail).1.terminals "t1" =
      some { termBuf with connections := [("s1", "s1")] }) ∧
    (("s1", "s1") ∈ ([("s1", "s1")] : List (String × String))) :=
  attach_existing_replay_ack stBuf "s1" ⟨some "t1", none, none, none⟩
    "f1" 0 "2025-01-01T00:00:00.000Z" noFail "t1" termBuf rfl (by decide)

/-- C2 witness: with one unrelated session registered, an attach naming
an absent id appends exactly the described fresh session (no error, a
"connected" acknowledgement emitted). -/
theorem attach_unknown_id_creates_witness :
    (getTerminal stBuf.terminals "missing" = none) ∧
    ((createOrAttachTerminal stBuf "s2" ⟨some "missing", none, none, none⟩
        "f2" 11 "2025-01-02T00:00:00.000Z" noFail).1.terminals =
       stBuf.terminals ++
         [{ id := "f2", pid := 11, connections := [("s2", "s2")],
            createdAt := "2025-01-02T00:00:00.000Z",
            initialCommand := ["bash"], buffer := [],
            screenName := none, programName := none }]) ∧
    (Action.emit "s2" "connected" (Payload.obj
       [("terminalId", JVal.str "f2"), ("screenName", JVal.undef),
        ("connectionCount", JVal.num 1)]) ∈
      (createOrAttachTerminal stBuf "s2" ⟨some "missing", none, none, none⟩
        "f2" 11 "2025-01-02T00:00:00.000Z" noFail).2) := by
  have h := attach_unknown_id_creates stBuf "s2" ⟨some "missing", none, none, none⟩
    "f2" 11 "2025-01-02T00:00:00.000Z" noFail "missing" rfl (by decide)
  exact ⟨by decide, h.1, h.2.2⟩

/-- C7 counterexample: start() can complete successfully with status
running and no pid at all — the screen session is created and answers
liveness checks, the command is sent, every pid-resolution pipeline
comes back empty (so the most recent process-table check resolved
nothing, and even set status stopped), yet start() then overwrites the
status with running.  This falsifies the invariant as claimed for "any
operation". -/
theorem start_running_without_pid :
    (start pStart cStart).2 = true ∧
    (start pStart cStart).1.status = ProgramStatus.running ∧
    (start pStart cStart).1.pid = none := by
  decide

/-- C7 amended: the claimed invariant does hold after the monitoring
operations — monitor() and findProcessPid() — given well-formed
process-table output and a consistent starting state: afterwards,
status running implies a pid is on hand, a non-running status implies
the pid is cleared, and a screen session found inactive forces status
stopped with the stale pid cleared.  start() is the exception the
counterexample exhibits. -/
theorem program_status_invariant (p : ProgramSt) (cm : MonitorCalls)
    (cf : FindPidCalls) (hp : PInv p)
    (h1 : wfFind cm.find1) (h2 : wfFind cm.find2) (hf : wfFind cf) :
    (PInv (monitor p cm) ∧
     ((monitor p cm).screenActive = false →
       (monitor p cm).status = ProgramStatus.stopped ∧
       (monitor p cm).pid = none)) ∧
    (PInv (findProcessPid p cf).1 ∧
     ((findProcessPid p cf).1.screenActive = false →
       (findProcessPid p cf).1.status = ProgramStatus.stopped ∧
       (findProcessPid p cf).1.pid = none)) :=
  ⟨monitor_inv p cm hp h1 h2, findProcessPid_inv p cf hf⟩

/-- C7 witness: a healthy running program stays consistent through a
monitor pass and a pid resolution. -/
theorem program_status_invariant_witness :
    (PInv (monitor pMon cMon) ∧
     ((monitor pMon cMon).screenActive = false →
       (monitor pMon cMon).status = ProgramStatus.stopped ∧
       (monitor pMon cMon).pid = none)) ∧
    (PInv (findProcessPid pMon cFind).1 ∧
     ((findProcessPid pMon cFind).1.screenActive = false →
       (findProcessPid pMon cFind).1.status = ProgramStatus.stopped ∧
       (findProcessPid pMon cFind).1.pid = none)) :=
  program_status_invariant pMon cMon cFind (by decide) (by decide)
    (by decide) (by decide)

/-- C8 counterexample: a SIGHUP-configured program whose pid cannot be
resolved but whose screen session is listed alive does not return
false without side effects — stop() falls back to sending the Ctrl-C
keystroke into the screen session and here even returns true. -/
theorem stop_fallback_keystroke :
    (stop pNoPid cNoPid).2.1 = true ∧
    (stop pNoPid cNoPid).2.2 = [OsAction.stuff "web" "\x03"] := by
  decide

/-- C8 amended: for a SIGHUP-configured program, stop() invokes the OS
kill primitive with SIGHUP exactly once whenever a pid is on hand
(already stored, or resolved by the pre-signal lookup); when no pid
can be resolved and the screen session is also inactive it returns
false having sent no signal and no keystroke; when no pid can be
resolved but the screen session is active it sends no kill signal but
falls back to exactly one Ctrl-C keystroke into the screen session. -/
theorem stop_sighup (p : ProgramSt) (c : StopCalls)
    (hm : p.stopMethod = StopMethod.SIGHUP) :
    (∀ n, p.pid = some n →
       (stop p c).2.2 = [OsAction.kill n "SIGHUP"]) ∧
    (p.pid = none →
      ((∀ m, (findProcessPid p c.find1).1.pid = some m →
          (stop p c).2.2 = [OsAction.kill m "SIGHUP"]) ∧
       ((findProcessPid p c.find1).1.pid = none →
          (findProcessPid p c.find1).1.screenActive = false →
          stop p c = ((findProcessPid p c.find1).1, false, [])) ∧
       ((findProcessPid p c.find1).1.pid = none →
          (findProcessPid p c.find1).1.screenActive = true →
          (stop p c).2.2 =
            [OsAction.stuff (findProcessPid p c.find1).1.screenName "\x03"]))) := by
  have hnc : p.stopMethod ≠ StopMethod.CTRL_C := by
    rw [hm]
    decide
  constructor
  · intro n hn
    unfold stop
    rw [if_neg (by simp [hn])]
    unfold stopSignalPhase
    rw [hm, hn]
    dsimp only
    by_cases hk : c.killOk = true
    · rw [if_neg (by simp [hk])]
      by_cases hfin : ((findProcessPid p c.find2).1.pid.isNone) = true
      · rw [if_pos hfin]
        rfl
      · rw [if_neg hfin]
        rfl
    · rw [if_pos (by simp [hk])]
      rfl
  · intro hn
    refine ⟨?_, ?_, ?_⟩
    · intro m hms
      unfold stop
      rw [if_pos ⟨hnc, hn⟩, if_neg (by simp [hms])]
      unfold stopSignalPhase
      rw [(findProcessPid_pres p c.find1).1, hm, hms]
      dsimp only
      by_cases hk : c.killOk = true
      · rw [if_neg (by simp [hk])]
        by_cases hfin : ((findProcessPid (findProcessPid p c.find1).1 c.find2).1.pid.isNone) = true
        · rw [if_pos hfin]
          rfl
        · rw [if_neg hfin]
          rfl
      · rw [if_pos (by simp [hk])]
        rfl
    · intro hnone hsa
      unfold stop
      rw [if_pos ⟨hnc, hn⟩, if_pos hnone, if_neg (by simp [hsa])]
    · intro hnone hsa
      unfold stop
      rw [if_pos ⟨hnc, hn⟩, if_pos hnone, if_pos hsa]
      unfold stopWithCtrlC
      have hif : (if (!(findProcessPid p c.find1).1.screenActive) = true then
            checkScreenActive (findProcessPid p c.find1).1 c.ctrl.screenCheck
          else ((findProcessPid p c.find1).1, true)) =
          ((findProcessPid p c.find1).1, true) := by
        rw [if_neg]
        simp [hsa]
      rw [hif]
      dsimp only
      by_cases hfin : ((findProcessPid (findProcessPid p c.find1).1 c.ctrl.find).1.pid.isNone) = true
      · rw [if_pos hfin]
        rfl
      · rw [if_neg hfin]
        rfl

/-- C8 witness: a SIGHUP program holding pid 42 delivers exactly one
SIGHUP kill. -/
theorem stop_sighup_witness :
    (stop pWithPid cWithPid).2.2 = [OsAction.kill 42 "SIGHUP"] :=
  (stop_sighup pWithPid cWithPid rfl).1 42 rfl

/-- C10 counterexample: a token whose expiry instant equals the
current time still validates, although its expiry time is not in the
future — the code only rejects strictly past expiries. -/
theorem token_boundary :
    validateAuthToken stTok "tk" 300000 = true ∧
    ¬ (∃ a ∈ stTok, a.token = "tk" ∧ 300000 < a.expiresAt) := by
  decide

/-- C10 amended: every generated token expires exactly 300 seconds
after issuance (the stored expiry is issuance plus 300000 ms and the
reply says 300 s); validation succeeds if and only if a stored entry
carries the token and its expiry instant is not earlier than the
current time (so tokens remain valid at the exact expiry instant);
and a disconnect discards all the socket's tokens, after which a
token only that socket held never validates. -/
theorem token_lifecycle (store : TokenStore) (sid fresh tok : String)
    (now now2 : Nat) :
    ((generateAuthToken store sid now fresh).2.2 = 300 ∧
     (generateAuthToken store sid now fresh).1 =
       store ++ [{ token := fresh, socketId := sid, createdAt := now,
                   expiresAt := now + 300000 }]) ∧
    (store.Pairwise (fun a b => a.token ≠ b.token) →
      (validateAuthToken store tok now2 = true ↔
        ∃ a ∈ store, a.token = tok ∧ now2 ≤ a.expiresAt)) ∧
    ((∀ a ∈ store, a.token = tok → a.socketId = sid) →
      validateAuthToken (handleDisconnect store sid) tok now2 = false) := by
  refine ⟨⟨?_, rfl⟩, fun hnd => validateAuthToken_iff store tok now2 hnd,
    fun h => validate_after_disconnect store sid tok now2 h⟩
  show (now + tokenLifetimeMs - now) / 1000 = 300
  rw [Nat.add_sub_cancel_left]
  rfl

/-- C10 witness: a generated token stores a 300 s expiry; the stored
boundary token still validates at time 5 and stops validating once its
socket disconnects. -/
theorem token_lifecycle_witness :
    ((generateAuthToken stTok "s1" 1000 "tk2").2.2 = 300) ∧
    ((generateAuthToken stTok "s1" 1000 "tk2").1 =
       stTok ++ [{ token := "tk2", socketId := "s1", createdAt := 1000,
                   expiresAt := 1000 + 300000 }]) ∧
    (validateAuthToken stTok "tk" 5 = true) ∧
    (validateAuthToken (handleDisconnect stTok "s1") "tk" 5 = false) := by
  have h := token_lifecycle stTok "s1" "tk2" "tk" 1000 5
  refine ⟨h.1.1, h.1.2, ?_, h.2.2 (by decide)⟩
  exact (h.2.1 (by decide)).mpr
    ⟨{ token := "tk", socketId := "s1", createdAt := 0, expiresAt := 300000 },
     by decide, rfl, by decide⟩

/-- C6 witness: with two attached viewers of which the first has a
throwing socket, a chunk is still appended and delivered to the second
viewer, and the first failure is caught. -/
theorem output_fanout_witness :
    ((handleData stTwo "t1" "hi" failA).2.head? =
      some (Action.bufferAppend "t1" "hi")) ∧
    (getTerminal (handleData stTwo "t1" "hi" failA).1.terminals "t1" =
      some { termTwo with buffer := pushChunk termTwo.buffer "hi" }) ∧
    (Action.emit "sB" "output" (Payload.str "hi") ∈ (handleData stTwo "t1" "hi" failA).2) ∧
    (Action.emitFailed "sA" "output" ∈ (handleData stTwo "t1" "hi" failA).2) := by
  have h := output_fanout stTwo "t1" "hi" failA termTwo (by decide)
  exact ⟨h.1, h.2.1,
    h.2.2.1 ("cB", "sB") (by decide) (by decide),
    h.2.2.2 ("cA", "sA") (by decide) (by decide)⟩

end StartupManager
